import Mathlib

/-!
Shallow embedding of the AppArmor fragment staging module
(`plugins/modules/apparmor_profile.py`) and its action plugin
(`plugins/action/apparmor_profile.py`).

Filesystem model: a path is a list of components; a filesystem state is an
association list from file paths to byte contents (strings) together with a
list of existing directories.  `os.path.join(a, b)` with a single trailing
component is `a ++ [b]`.  `os.makedirs` creates a directory together with its
missing parents; `os.rename` inside one directory is modelled as deleting the
source entry and writing the destination entry with the source's content
(atomicity is implicit: the model has no intermediate state);
`tempfile.mkstemp` is modelled as creating an empty file under a fixed fresh
name, abstracting the random infix mkstemp inserts between its prefix and
suffix arguments.  Permission bits are not modelled beyond the fault-injection
point for `os.chmod`.  Fallible filesystem steps that the claims depend on are
driven by explicit fault parameters; a step with no injected fault succeeds.
Wall-clock time (`time.time()`, a float of seconds) is passed in as an integer
number of milliseconds, so `int(time.time())` is that number divided by 1000.
-/

abbrev FsPath := List String

def findFile : List (FsPath × String) → FsPath → Option String
  | [], _ => none
  | (q, c) :: rest, p => if q = p then some c else findFile rest p

def removeFileL : List (FsPath × String) → FsPath → List (FsPath × String)
  | [], _ => []
  | (q, c) :: rest, p => if q = p then removeFileL rest p else (q, c) :: removeFileL rest p

def hasDir : List FsPath → FsPath → Bool
  | [], _ => false
  | q :: rest, p => if q = p then true else hasDir rest p

def removeDirL : List FsPath → FsPath → List FsPath
  | [], _ => []
  | q :: rest, p => if q = p then removeDirL rest p else q :: removeDirL rest p

def isStrictPrefixOf : FsPath → FsPath → Bool
  | [], [] => false
  | [], _ :: _ => true
  | _ :: _, [] => false
  | a :: as, b :: bs => if a = b then isStrictPrefixOf as bs else false

def anyUnder : List (FsPath × String) → FsPath → Bool
  | [], _ => false
  | (q, _) :: rest, d => isStrictPrefixOf d q || anyUnder rest d

def anyDirUnder : List FsPath → FsPath → Bool
  | [], _ => false
  | q :: rest, d => isStrictPrefixOf d q || anyDirUnder rest d

/-- The predicate `anyOtherUnder l d ex` holds when some file entry of `l` other than `ex`
lies strictly below directory `d`. -/
def anyOtherUnder : List (FsPath × String) → FsPath → FsPath → Bool
  | [], _, _ => false
  | (q, _) :: rest, d, ex => (isStrictPrefixOf d q && decide (q ≠ ex)) || anyOtherUnder rest d ex

structure FS where
  files : List (FsPath × String)
  dirs : List FsPath
deriving DecidableEq

def FS.read (fs : FS) (p : FsPath) : Option String := findFile fs.files p

/-- Models `os.path.exists`: true for an existing file or an existing directory. -/
def FS.pathExists (fs : FS) (p : FsPath) : Bool := (fs.read p).isSome || hasDir fs.dirs p

def FS.writeFile (fs : FS) (p : FsPath) (c : String) : FS :=
  { fs with files := (p, c) :: removeFileL fs.files p }

def FS.removeFile (fs : FS) (p : FsPath) : FS :=
  { fs with files := removeFileL fs.files p }

/-- The nonempty prefixes of a path, i.e. the chain of directories
`os.makedirs` would create. -/
def nonNilPrefixes (p : FsPath) : List FsPath :=
  (List.range p.length).map (fun i => p.take (i + 1))

def addDirs (ds : List FsPath) (new : List FsPath) : List FsPath :=
  new.filter (fun q => !hasDir ds q) ++ ds

/-- Models `os.makedirs p`: create `p` and every missing parent directory. -/
def FS.makedirs (fs : FS) (p : FsPath) : FS :=
  { fs with dirs := addDirs fs.dirs (nonNilPrefixes p) }

/-- Models `os.rmdir d` wrapped in `try/except OSError: pass`: the directory is
removed only when nothing (file or directory) lies strictly below it;
any failure (non-empty directory, missing directory) is ignored. -/
def FS.rmdirIfEmpty (fs : FS) (d : FsPath) : FS :=
  if anyUnder fs.files d || anyDirUnder fs.dirs d then fs
  else { fs with dirs := removeDirL fs.dirs d }

def fsEmpty : FS := { files := [], dirs := [] }

/-! ## The staging engine (`plugins/modules/apparmor_profile.py`) -/

/-- The stored form of a fragment: `f"# Mode: {mode}\n{fragment_content}"`
(line 135 and line 191 of the module source). -/
def storedForm (mode fragment_content : String) : String :=
  "# Mode: " ++ mode ++ "\n" ++ fragment_content

/-- The fragment file name `f"{role_name}.fragment"` (lines 132, 164, 182). -/
def fragName (role_name : String) : String := role_name ++ ".fragment"

/-- The name `tempfile.mkstemp(dir=staging_dir, prefix=f".{role_name}_",
suffix=".tmp")` allocates (line 138); the random infix is abstracted to a
fixed string, assumed fresh. -/
def tempName (role_name : String) : String := "." ++ role_name ++ "_XXXXXX.tmp"

/-- Function `ensure_staging_directory` (module lines 112–117): create
`staging_base_dir/profile_name` unless the path already exists. -/
def ensure_staging_directory (fs : FS) (profile_name : String) (staging_base_dir : FsPath) :
    FS × FsPath :=
  let staging_dir := staging_base_dir ++ [profile_name]
  if fs.pathExists staging_dir then (fs, staging_dir)
  else (fs.makedirs staging_dir, staging_dir)

/-- Function `detect_role_name` (module lines 120–125): `f"role_{int(time.time())}"`,
with the wall clock supplied in milliseconds. -/
def detect_role_name (now_ms : Nat) : String :=
  "role_" ++ toString (now_ms / 1000)

/-- Fault-injection points of `write_fragment`'s try block: the
`temp_file.write` call, the `os.rename` call, and the `os.chmod` call. -/
inductive WriteStep where
  | writeStep
  | renameStep
  | chmodStep
deriving DecidableEq

/-- Function `write_fragment` (module lines 130–159).  A temporary file is allocated in
the staging directory, the stored form is written to it, the temp file is
renamed onto the fragment path, and the fragment is chmodded 0o644.  On any
exception the handler unlinks the temp path (ignoring `OSError`) and
re-raises.  `fault` injects a failure at the named step; `none` means every
step succeeds. -/
def write_fragment (fault : Option WriteStep) (fs : FS) (staging_dir : FsPath)
    (fragment_content mode role_name : String) : FS × Except String FsPath :=
  let fragment_path := staging_dir ++ [fragName role_name]
  let content_with_mode := storedForm mode fragment_content
  let temp_path := staging_dir ++ [tempName role_name]
  let fs1 := fs.writeFile temp_path ""
  if fault = some WriteStep.writeStep then
    (fs1.removeFile temp_path, Except.error "write failed")
  else
    let fs2 := fs1.writeFile temp_path content_with_mode
    if fault = some WriteStep.renameStep then
      (fs2.removeFile temp_path, Except.error "rename failed")
    else
      let fs3 := (fs2.removeFile temp_path).writeFile fragment_path content_with_mode
      if fault = some WriteStep.chmodStep then
        (fs3, Except.error "chmod failed")
      else
        (fs3, Except.ok fragment_path)

/-- Function `remove_fragment` (module lines 162–177): unlink the fragment if it
exists, then best-effort-remove the staging directory; report whether a
fragment was removed. -/
def remove_fragment (fs : FS) (staging_dir : FsPath) (role_name : String) : FS × Bool :=
  let fragment_path := staging_dir ++ [fragName role_name]
  if fs.pathExists fragment_path then
    ((fs.removeFile fragment_path).rmdirIfEmpty staging_dir, true)
  else (fs, false)

/-- Function `fragment_exists_and_unchanged` (module lines 180–194): false when the
path does not exist; an `IOError` while opening/reading (injected via
`read_fault`, and also arising when the path exists only as a directory) is
caught and reported as `False`; otherwise compare the file's bytes with the
expected stored form. -/
def fragment_exists_and_unchanged (read_fault : Bool) (fs : FS) (staging_dir : FsPath)
    (fragment_content mode role_name : String) : Bool :=
  let fragment_path := staging_dir ++ [fragName role_name]
  if !(fs.pathExists fragment_path) then false
  else if read_fault then false
  else
    match fs.read fragment_path with
    | none => false
    | some existing => existing = storedForm mode fragment_content

/-- The module parameters `run_module` reads (lines 216–221), after the
action plugin has resolved `fragment_src` into `fragment`. -/
structure Params where
  name : String
  fragment : String
  mode : String
  role_name : Option String
  state : String
  staging_base_dir : FsPath
deriving DecidableEq

structure Faults where
  read_fault : Bool
  write_fault : Option WriteStep
deriving DecidableEq

def noFaults : Faults := { read_fault := false, write_fault := none }

structure ModuleResult where
  changed : Bool
  message : String
  fragment_path : FsPath
  failed : Bool
deriving DecidableEq

/-- Models `if not role_name: role_name = detect_role_name()` (lines 224–225);
Python treats both `None` and the empty string as falsy. -/
def resolve_role_name (role_name : Option String) (now_ms : Nat) : String :=
  match role_name with
  | none => detect_role_name now_ms
  | some r => if r = "" then detect_role_name now_ms else r

def staging_path (p : Params) : FsPath := p.staging_base_dir ++ [p.name]

def fragment_path_of (p : Params) (now_ms : Nat) : FsPath :=
  staging_path p ++ [fragName (resolve_role_name p.role_name now_ms)]

/-- Function `run_module` (module lines 197–274) after argument validation: resolve
the role name, ensure the staging directory (only outside check mode), then
dispatch on `state`.  Exceptions raised by `write_fragment` are caught by the
surrounding `try` and turned into `fail_json(msg=..., **result)` with the
`result` dict still at its initial values (`changed=False`,
`fragment_path=''`, modelled as `[]`). -/
def run_module (fl : Faults) (now_ms : Nat) (check_mode : Bool) (fs : FS) (p : Params) :
    FS × ModuleResult :=
  let role_name := resolve_role_name p.role_name now_ms
  let staging_dir := p.staging_base_dir ++ [p.name]
  let fs1 := if check_mode then fs else (ensure_staging_directory fs p.name p.staging_base_dir).1
  if p.state = "present" then
    if !check_mode && fragment_exists_and_unchanged fl.read_fault fs1 staging_dir p.fragment p.mode role_name then
      (fs1, { changed := false
            , message := "Fragment for profile " ++ p.name ++ " from role " ++ role_name ++ " already exists and is unchanged"
            , fragment_path := staging_dir ++ [fragName role_name]
            , failed := false })
    else
      if check_mode then
        (fs1, { changed := true
              , message := "Fragment for profile " ++ p.name ++ " from role " ++ role_name ++ " has been would be created"
              , fragment_path := staging_dir ++ [fragName role_name]
              , failed := false })
      else
        let wr := write_fragment fl.write_fault fs1 staging_dir p.fragment p.mode role_name
        match wr.2 with
        | Except.ok path =>
            (wr.1, { changed := true
                   , message := "Fragment for profile " ++ p.name ++ " from role " ++ role_name ++ " has been created"
                   , fragment_path := path
                   , failed := false })
        | Except.error e =>
            (wr.1, { changed := false
                   , message := "Failed to manage AppArmor profile fragment: " ++ e
                   , fragment_path := []
                   , failed := true })
  else if p.state = "absent" then
    if check_mode then
      if fs1.pathExists (staging_dir ++ [fragName role_name]) then
        (fs1, { changed := true
              , message := "Fragment for profile " ++ p.name ++ " from role " ++ role_name ++ " would be removed"
              , fragment_path := []
              , failed := false })
      else
        (fs1, { changed := false
              , message := "Fragment for profile " ++ p.name ++ " from role " ++ role_name ++ " would not be removed (not found)"
              , fragment_path := []
              , failed := false })
    else
      let rm := remove_fragment fs1 staging_dir role_name
      if rm.2 then
        (rm.1, { changed := true
               , message := "Fragment for profile " ++ p.name ++ " from role " ++ role_name ++ " has been removed"
               , fragment_path := []
               , failed := false })
      else
        (rm.1, { changed := false
               , message := "Fragment for profile " ++ p.name ++ " from role " ++ role_name ++ " was not found"
               , fragment_path := []
               , failed := false })
  else
    (fs1, { changed := false, message := "", fragment_path := [], failed := false })

/-! ## The action plugin (`plugins/action/apparmor_profile.py`) -/

/-- The collaborators `ActionModule.run` uses: `self._find_needle('files', ·)`
and `self._find_needle('templates', ·)` (returning the located path or
raising `AnsibleFileNotFound`, modelled as `Option`), the control-node file
read (`none` = raised exception), and `self._templar.template`
(`none` = raised exception). -/
structure ActionCtx where
  findFiles : String → Option String
  findTemplates : String → Option String
  readFile : String → Option String
  template : String → Option String

/-- The four `result['failed'] = True` sites of `ActionModule.run`. -/
inductive ActionErr where
  | mutualExclusion
  | notFound
  | readError
  | templateError
deriving DecidableEq

inductive ActionOutcome where
  | failed : ActionErr → String → ActionOutcome
  | execute : String → ActionOutcome
  | passthrough : ActionOutcome
deriving DecidableEq

/-- Action plugin lines 61–87: read the located source file and always pass
its content through the templar; on success the module is executed with the
templated content as `fragment`. -/
def resolve_and_execute (ctx : ActionCtx) (source_file : String) : ActionOutcome :=
  match ctx.readFile source_file with
  | none => ActionOutcome.failed ActionErr.readError ("Failed to read file " ++ source_file)
  | some file_content =>
    match ctx.template file_content with
    | none => ActionOutcome.failed ActionErr.templateError ("Failed to template file " ++ source_file)
    | some templated_content => ActionOutcome.execute templated_content

/-- Method `ActionModule.run` (action plugin lines 28–96), restricted to the
`fragment_src` handling: search `files/` first, fall back to `templates/`
only when the `files/` lookup raises, fail when both raise; a located file is
read and templated, and the module then runs with the templated content.
When `fragment_src` is absent the args are passed through unmodified. -/
def action_run (ctx : ActionCtx) (fragment_src fragment : Option String) : ActionOutcome :=
  match fragment_src with
  | none => ActionOutcome.passthrough
  | some src =>
    if fragment.isSome then
      ActionOutcome.failed ActionErr.mutualExclusion "fragment_src and fragment are mutually exclusive"
    else
      match ctx.findFiles src with
      | some source_file => resolve_and_execute ctx source_file
      | none =>
        match ctx.findTemplates src with
        | some source_file => resolve_and_execute ctx source_file
        | none =>
          ActionOutcome.failed ActionErr.notFound
            ("Could not find or access " ++ src ++ " in files/ or templates/ directories")

/-- Decides whether an outcome is the lookup failure of lines 56–59. -/
def isNotFoundFailure : ActionOutcome → Bool
  | ActionOutcome.failed ActionErr.notFound _ => true
  | _ => false

/-! ## Boundary validation (`AnsibleModule`, module lines 199–214) -/

/-- The raw task arguments before `AnsibleModule` validation. -/
structure RawArgs where
  name : Option String
  fragment_src : Option String
  fragment : Option String
  mode : Option String
  role_name : Option String
  state : Option String
  staging_base_dir : Option FsPath
deriving DecidableEq

/-- Models `AnsibleModule(argument_spec=..., mutually_exclusive=[[
'fragment_src', 'fragment']], required_one_of=[['fragment_src',
'fragment']])` validation for the argument_spec of module lines 199–207:
`required=True` rejects only a missing (`None`) value — an empty string
passes; `choices` are checked when a value is supplied; `mutually_exclusive`
rejects supplying both content sources and `required_one_of` rejects
supplying neither. -/
def validate_args (a : RawArgs) : Bool :=
  a.name.isSome &&
  (match a.mode with
   | none => true
   | some m => decide (m = "enforce" ∨ m = "complain" ∨ m = "disable")) &&
  (match a.state with
   | none => true
   | some s => decide (s = "present" ∨ s = "absent")) &&
  !(a.fragment_src.isSome && a.fragment.isSome) &&
  (a.fragment_src.isSome || a.fragment.isSome)

/-- Defaults from the argument_spec: `mode='enforce'`, `state='present'`,
`staging_base_dir='/etc/apparmor.d/roles'`. -/
def apply_defaults (a : RawArgs) : Params :=
  { name := a.name.getD ""
  , fragment := a.fragment.getD ""
  , mode := a.mode.getD "enforce"
  , role_name := a.role_name
  , state := a.state.getD "present"
  , staging_base_dir := a.staging_base_dir.getD ["etc", "apparmor.d", "roles"] }

/-- The failure `AnsibleModule` reports when validation rejects the
arguments, before any module code runs. -/
def configErrorResult : ModuleResult :=
  { changed := false, message := "configuration error", fragment_path := [], failed := true }

/-- Module entry: `AnsibleModule(...)` validates the arguments (touching no
filesystem on the managed host) and only then does `run_module`'s body run. -/
def module_main (fl : Faults) (now_ms : Nat) (check_mode : Bool) (fs : FS) (a : RawArgs) :
    FS × ModuleResult :=
  if validate_args a then run_module fl now_ms check_mode fs (apply_defaults a)
  else (fs, configErrorResult)

/-! ## Concrete states used by witnesses and counterexamples -/

/-- A staging tree holding one fragment for target `t` by role `r`, stored
from content `"X"` in enforce mode. -/
def fs_one_frag : FS :=
  { files := [(["b", "t", "r.fragment"], "# Mode: enforce\nX")]
  , dirs := [["b"], ["b", "t"]] }

/-- A staging tree holding fragments by roles `r` and `s` for target `t`. -/
def fs_two_frags : FS :=
  { files := [(["b", "t", "r.fragment"], "# Mode: enforce\nA"),
              (["b", "t", "s.fragment"], "# Mode: enforce\nB")]
  , dirs := [["b"], ["b", "t"]] }

def p_present : Params :=
  { name := "t", fragment := "X", mode := "enforce", role_name := some "r"
  , state := "present", staging_base_dir := ["b"] }

def p_absent : Params :=
  { name := "t", fragment := "X", mode := "enforce", role_name := some "r"
  , state := "absent", staging_base_dir := ["b"] }

/-- Raw arguments supplying an empty target name, inline content, and
otherwise valid values. -/
def a_empty_name : RawArgs :=
  { name := some "", fragment_src := none, fragment := some "X", mode := some "enforce"
  , role_name := some "r", state := some "present", staging_base_dir := some ["b"] }

/-- A resolution context whose `files/` lookup knows `"a.rules"`, whose
`templates/` lookup knows `"b.rules"`, and whose reads and template
expansion succeed on them. -/
def ctx_sample : ActionCtx :=
  { findFiles := fun s => if s = "a.rules" then some "roles/x/files/a.rules" else none
  , findTemplates := fun s => if s = "b.rules" then some "roles/x/templates/b.rules" else none
  , readFile := fun f => if f = "roles/x/files/a.rules" then some "raw rules"
      else if f = "roles/x/templates/b.rules" then some "tmpl rules" else none
  , template := fun c => some (c ++ " expanded") }

/-! ## Association-list and directory-list lemmas -/

theorem findFile_removeFileL_ne (l : List (FsPath × String)) (p q : FsPath) (h : q ≠ p) :
    findFile (removeFileL l p) q = findFile l q := by
  induction l with
  | nil => rfl
  | cons x rest ih =>
    obtain ⟨xp, xc⟩ := x
    by_cases hxp : xp = p <;> by_cases hxq : xp = q <;>
      simp_all [removeFileL, findFile]

theorem findFile_removeFileL_self (l : List (FsPath × String)) (p : FsPath) :
    findFile (removeFileL l p) p = none := by
  induction l with
  | nil => rfl
  | cons x rest ih =>
    obtain ⟨xp, xc⟩ := x
    by_cases hxp : xp = p <;> simp_all [removeFileL, findFile]

theorem read_writeFile_self (fs : FS) (p : FsPath) (c : String) :
    (fs.writeFile p c).read p = some c := by
  simp [FS.writeFile, FS.read, findFile]

theorem read_writeFile_ne (fs : FS) (p q : FsPath) (c : String) (h : q ≠ p) :
    (fs.writeFile p c).read q = fs.read q := by
  simp only [FS.writeFile, FS.read, findFile]
  rw [if_neg (fun hpq => h hpq.symm), findFile_removeFileL_ne _ _ _ h]

theorem read_removeFile_self (fs : FS) (p : FsPath) :
    (fs.removeFile p).read p = none := by
  simp [FS.removeFile, FS.read, findFile_removeFileL_self]

theorem read_removeFile_ne (fs : FS) (p q : FsPath) (h : q ≠ p) :
    (fs.removeFile p).read q = fs.read q := by
  simp [FS.removeFile, FS.read, findFile_removeFileL_ne _ _ _ h]

theorem hasDir_append (l₁ l₂ : List FsPath) (q : FsPath) :
    hasDir (l₁ ++ l₂) q = (hasDir l₁ q || hasDir l₂ q) := by
  induction l₁ with
  | nil => simp [hasDir]
  | cons x rest ih =>
    by_cases hx : x = q <;> simp_all [hasDir]

theorem hasDir_filter (l : List FsPath) (f : FsPath → Bool) (q : FsPath) :
    hasDir (l.filter f) q = (hasDir l q && f q) := by
  induction l with
  | nil => simp [hasDir]
  | cons x rest ih =>
    by_cases hfx : f x <;> by_cases hx : x = q <;>
      simp_all [hasDir, List.filter_cons]

theorem hasDir_addDirs (ds new : List FsPath) (q : FsPath) :
    hasDir (addDirs ds new) q = (hasDir new q || hasDir ds q) := by
  unfold addDirs
  rw [hasDir_append, hasDir_filter]
  cases h : hasDir ds q <;> simp [h]

theorem hasDir_iff_mem (l : List FsPath) (q : FsPath) : hasDir l q = true ↔ q ∈ l := by
  induction l with
  | nil => simp [hasDir]
  | cons x rest ih =>
    by_cases hx : x = q <;> simp_all [hasDir]
    exact fun h => (hx h.symm).elim

theorem length_le_of_mem_nonNilPrefixes {d q : FsPath} (h : q ∈ nonNilPrefixes d) :
    q.length ≤ d.length := by
  unfold nonNilPrefixes at h
  rw [List.mem_map] at h
  obtain ⟨i, _, rfl⟩ := h
  rw [List.length_take]
  omega

theorem hasDir_nonNilPrefixes_long {d q : FsPath} (h : d.length < q.length) :
    hasDir (nonNilPrefixes d) q = false := by
  rw [Bool.eq_false_iff]
  intro hq
  have := length_le_of_mem_nonNilPrefixes ((hasDir_iff_mem _ _).1 hq)
  omega

theorem hasDir_nonNilPrefixes_self {d : FsPath} (h : d ≠ []) :
    hasDir (nonNilPrefixes d) d = true := by
  rw [hasDir_iff_mem]
  unfold nonNilPrefixes
  rw [List.mem_map]
  have hpos : 0 < d.length := List.length_pos.mpr h
  exact ⟨d.length - 1, by rw [List.mem_range]; omega,
    by rw [Nat.sub_add_cancel hpos, List.take_length]⟩

theorem append_singleton_ne_self (a : FsPath) (x : String) : a ++ [x] ≠ a := by
  intro h
  have := congrArg List.length h
  simp at this

theorem append_singleton_ne_of_ne {a : FsPath} {x y : String} (h : x ≠ y) :
    a ++ [x] ≠ a ++ [y] := by
  intro he
  exact h (by simpa using List.append_cancel_left he)

theorem tempName_ne_fragName (r : String) : tempName r ≠ fragName r := by
  intro h
  have hl := congrArg String.length h
  have h1 : ".".length = 1 := rfl
  have h2 : "_XXXXXX.tmp".length = 11 := rfl
  have h3 : ".fragment".length = 9 := rfl
  rw [tempName, fragName] at hl
  rw [String.length_append, String.length_append, String.length_append, h1, h2, h3] at hl
  omega

/-! ## Filesystem-operation frame lemmas -/

theorem dirs_writeFile (fs : FS) (p : FsPath) (c : String) : (fs.writeFile p c).dirs = fs.dirs := rfl

theorem dirs_removeFile (fs : FS) (p : FsPath) : (fs.removeFile p).dirs = fs.dirs := rfl

theorem files_makedirs (fs : FS) (d : FsPath) : (fs.makedirs d).files = fs.files := rfl

theorem read_makedirs (fs : FS) (d q : FsPath) : (fs.makedirs d).read q = fs.read q := rfl

theorem pathExists_makedirs_long (fs : FS) {d q : FsPath} (h : d.length < q.length) :
    (fs.makedirs d).pathExists q = fs.pathExists q := by
  simp [FS.pathExists, FS.makedirs, FS.read, hasDir_addDirs, hasDir_nonNilPrefixes_long h]

theorem ensure_files (fs : FS) (n : String) (b : FsPath) :
    ((ensure_staging_directory fs n b).1).files = fs.files := by
  simp only [ensure_staging_directory]
  split <;> rfl

theorem read_ensure (fs : FS) (n : String) (b : FsPath) (q : FsPath) :
    ((ensure_staging_directory fs n b).1).read q = fs.read q := by
  unfold FS.read
  rw [ensure_files]

theorem pathExists_ensure_sub (fs : FS) (n : String) (b : FsPath) (x : String) :
    ((ensure_staging_directory fs n b).1).pathExists ((b ++ [n]) ++ [x]) =
      fs.pathExists ((b ++ [n]) ++ [x]) := by
  simp only [ensure_staging_directory]
  split
  · rfl
  · exact pathExists_makedirs_long fs (by simp)

theorem pathExists_ensure_self (fs : FS) (n : String) (b : FsPath) :
    ((ensure_staging_directory fs n b).1).pathExists (b ++ [n]) = true := by
  simp only [ensure_staging_directory]
  split
  · assumption
  · simp [FS.pathExists, FS.makedirs, hasDir_addDirs,
      hasDir_nonNilPrefixes_self (show b ++ [n] ≠ [] by simp)]

/-! ## Claims -/

/-- Claim C7 (corrected): `detect_role_name` derives the synthesized
contributor identity from the integer wall-clock second alone, so any two
unidentified invocations within the same wall-clock second derive the SAME
identity (the claim asserted they would differ). -/
theorem detect_role_name_same_second (ms₁ ms₂ : Nat) (h : ms₁ / 1000 = ms₂ / 1000) :
    detect_role_name ms₁ = detect_role_name ms₂ := by
  unfold detect_role_name
  rw [h]

/-- Witness for `detect_role_name_same_second` at the instants 5100 ms and
5900 ms, both inside wall-clock second 5. -/
theorem detect_role_name_same_second_witness :
    5100 / 1000 = 5900 / 1000 ∧ detect_role_name 5100 = detect_role_name 5900 :=
  ⟨by decide, detect_role_name_same_second 5100 5900 (by decide)⟩

/-- Counterexample to claim C7 as stated: the two distinct instants 5100 ms
and 5900 ms lie in the same wall-clock second, yet the two derived
identities are equal (both `"role_5"`), not different, because the
implementation is `f"role_{int(time.time())}"` with no extra entropy. -/
theorem detect_role_name_no_entropy :
    5100 ≠ 5900 ∧ 5100 / 1000 = 5900 / 1000 ∧
      detect_role_name 5100 = detect_role_name 5900 ∧
      detect_role_name 5100 = "role_5" := by
  refine ⟨by decide, by decide, ?_, ?_⟩ <;> rfl

/-- Claim C2 (code_bug): evaluating `run_module` with `state=absent` for a
(target, contributor) pair with no fragment, on a filesystem where the
staging directory does not exist, returns `changed=false` as the claim says
but — contrary to the claim and the spec — creates (and leaves behind) the
staging directory `baseDir/target`, because `run_module` calls
`ensure_staging_directory` before dispatching on `state`. -/
theorem absent_missing_fragment_creates_directory :
    (run_module noFaults 0 false fsEmpty p_absent).2.changed = false ∧
    fsEmpty.pathExists ["b", "t"] = false ∧
    hasDir (run_module noFaults 0 false fsEmpty p_absent).1.dirs ["b", "t"] = true ∧
    (run_module noFaults 0 false fsEmpty p_absent).1 ≠ fsEmpty := by
  decide

/-- Claim C4 (corrected, amended): when a step of `write_fragment`'s try
block fails after the temporary file is allocated, the temp file never
survives and an error propagates; a failure of the write or rename step
leaves the fragment previously at the fragment path byte-for-byte untouched,
while a failure of the permission-set step happens after the rename has
already replaced the fragment, which then holds the complete new stored form
(never a partial write). -/
theorem write_fragment_failure_atomicity (fs : FS) (staging : FsPath)
    (content mode r : String) (st : WriteStep) :
    (write_fragment (some st) fs staging content mode r).2.isOk = false ∧
    (write_fragment (some st) fs staging content mode r).1.read (staging ++ [tempName r]) = none ∧
    (write_fragment (some st) fs staging content mode r).1.read (staging ++ [fragName r]) =
      (if st = WriteStep.chmodStep then some (storedForm mode content)
       else fs.read (staging ++ [fragName r])) := by
  have hfr : staging ++ [fragName r] ≠ staging ++ [tempName r] :=
    append_singleton_ne_of_ne (fun h => tempName_ne_fragName r h.symm)
  have htf : staging ++ [tempName r] ≠ staging ++ [fragName r] := fun h => hfr h.symm
  cases st with
  | writeStep =>
    refine ⟨rfl, ?_, ?_⟩
    · show ((fs.writeFile (staging ++ [tempName r]) "").removeFile
          (staging ++ [tempName r])).read (staging ++ [tempName r]) = none
      exact read_removeFile_self _ _
    · show ((fs.writeFile (staging ++ [tempName r]) "").removeFile
          (staging ++ [tempName r])).read (staging ++ [fragName r]) =
        if WriteStep.writeStep = WriteStep.chmodStep then some (storedForm mode content)
        else fs.read (staging ++ [fragName r])
      rw [if_neg (by decide), read_removeFile_ne _ _ _ hfr, read_writeFile_ne _ _ _ _ hfr]
  | renameStep =>
    refine ⟨rfl, ?_, ?_⟩
    · show (((fs.writeFile (staging ++ [tempName r]) "").writeFile (staging ++ [tempName r])
          (storedForm mode content)).removeFile (staging ++ [tempName r])).read
          (staging ++ [tempName r]) = none
      exact read_removeFile_self _ _
    · show (((fs.writeFile (staging ++ [tempName r]) "").writeFile (staging ++ [tempName r])
          (storedForm mode content)).removeFile (staging ++ [tempName r])).read
          (staging ++ [fragName r]) =
        if WriteStep.renameStep = WriteStep.chmodStep then some (storedForm mode content)
        else fs.read (staging ++ [fragName r])
      rw [if_neg (by decide), read_removeFile_ne _ _ _ hfr, read_writeFile_ne _ _ _ _ hfr,
        read_writeFile_ne _ _ _ _ hfr]
  | chmodStep =>
    refine ⟨rfl, ?_, ?_⟩
    · show ((((fs.writeFile (staging ++ [tempName r]) "").writeFile (staging ++ [tempName r])
          (storedForm mode content)).removeFile (staging ++ [tempName r])).writeFile
          (staging ++ [fragName r]) (storedForm mode content)).read
          (staging ++ [tempName r]) = none
      rw [read_writeFile_ne _ _ _ _ htf, read_removeFile_self]
    · show ((((fs.writeFile (staging ++ [tempName r]) "").writeFile (staging ++ [tempName r])
          (storedForm mode content)).removeFile (staging ++ [tempName r])).writeFile
          (staging ++ [fragName r]) (storedForm mode content)).read
          (staging ++ [fragName r]) =
        if WriteStep.chmodStep = WriteStep.chmodStep then some (storedForm mode content)
        else fs.read (staging ++ [fragName r])
      rw [if_pos rfl, read_writeFile_self]

/-- Witness for `write_fragment_failure_atomicity` at a concrete state with
a pre-existing fragment and a rename-step failure. -/
theorem write_fragment_failure_atomicity_witness :
    (write_fragment (some WriteStep.renameStep) fs_one_frag ["b", "t"] "NEW" "enforce" "r").2.isOk = false ∧
    (write_fragment (some WriteStep.renameStep) fs_one_frag ["b", "t"] "NEW" "enforce" "r").1.read
      (["b", "t"] ++ [tempName "r"]) = none ∧
    (write_fragment (some WriteStep.renameStep) fs_one_frag ["b", "t"] "NEW" "enforce" "r").1.read
      (["b", "t"] ++ [fragName "r"]) =
      (if WriteStep.renameStep = WriteStep.chmodStep then some (storedForm "enforce" "NEW")
       else fs_one_frag.read (["b", "t"] ++ [fragName "r"])) :=
  write_fragment_failure_atomicity fs_one_frag ["b", "t"] "NEW" "enforce" "r" WriteStep.renameStep

/-- Counterexample to claim C4 as stated: with a fragment `"OLD"` on disk, a
failure injected at the permission-set (`os.chmod`) step — an operation
performed after the temporary file is allocated — fails the operation but
does NOT leave the previous fragment untouched: the rename has already
replaced it with the new stored form. -/
theorem write_fragment_chmod_failure_replaces :
    (write_fragment (some WriteStep.chmodStep)
        { files := [(["b", "t", "r.fragment"], "OLD")], dirs := [["b"], ["b", "t"]] }
        ["b", "t"] "NEW" "enforce" "r").2.isOk = false ∧
    (write_fragment (some WriteStep.chmodStep)
        { files := [(["b", "t", "r.fragment"], "OLD")], dirs := [["b"], ["b", "t"]] }
        ["b", "t"] "NEW" "enforce" "r").1.read ["b", "t", "r.fragment"] =
      some "# Mode: enforce\nNEW" ∧
    ("# Mode: enforce\nNEW" : String) ≠ "OLD" := by
  decide

/-! ## `run_module` branch characterizations -/

theorem remove_fragment_changed (fs : FS) (d : FsPath) (r : String) :
    (remove_fragment fs d r).2 = fs.pathExists (d ++ [fragName r]) := by
  simp only [remove_fragment]
  split
  · simp_all
  · simp_all

theorem run_module_check_fs (fl : Faults) (ms : Nat) (fs : FS) (p : Params) :
    (run_module fl ms true fs p).1 = fs := by
  by_cases h1 : p.state = "present"
  · simp [run_module, h1]
  · by_cases h2 : p.state = "absent"
    · simp [run_module, h1, h2]
      split <;> rfl
    · simp [run_module, h1, h2]

theorem run_module_check_present_changed (fl : Faults) (ms : Nat) (fs : FS) (p : Params)
    (hstate : p.state = "present") :
    (run_module fl ms true fs p).2.changed = true := by
  simp [run_module, hstate]

theorem run_module_check_absent_changed (fl : Faults) (ms : Nat) (fs : FS) (p : Params)
    (hstate : p.state = "absent") :
    (run_module fl ms true fs p).2.changed = fs.pathExists (fragment_path_of p ms) := by
  simp [run_module, hstate, fragment_path_of, staging_path]
  split
  · rename_i h
    simp_all
  · rename_i h
    simp_all

theorem files_rmdirIfEmpty (fs : FS) (d : FsPath) : (fs.rmdirIfEmpty d).files = fs.files := by
  simp only [FS.rmdirIfEmpty]
  split <;> rfl

theorem read_rmdirIfEmpty (fs : FS) (d q : FsPath) : (fs.rmdirIfEmpty d).read q = fs.read q := by
  unfold FS.read
  rw [files_rmdirIfEmpty]

theorem anyUnder_removeFileL (l : List (FsPath × String)) (p d : FsPath) :
    anyUnder (removeFileL l p) d = anyOtherUnder l d p := by
  induction l with
  | nil => rfl
  | cons x rest ih =>
    obtain ⟨xp, xc⟩ := x
    by_cases hxp : xp = p <;> simp_all [anyUnder, removeFileL, anyOtherUnder]

theorem hasDir_removeDirL_self (l : List FsPath) (p : FsPath) :
    hasDir (removeDirL l p) p = false := by
  induction l with
  | nil => rfl
  | cons x rest ih =>
    by_cases hx : x = p <;> simp_all [hasDir, removeDirL]

theorem write_fragment_dirs (fault : Option WriteStep) (fs : FS) (staging : FsPath)
    (c m r : String) : (write_fragment fault fs staging c m r).1.dirs = fs.dirs := by
  cases fault with
  | none => rfl
  | some st => cases st <;> rfl

theorem write_fragment_none_read_frag (fs : FS) (staging : FsPath) (c m r : String) :
    (write_fragment none fs staging c m r).1.read (staging ++ [fragName r]) =
      some (storedForm m c) := by
  show ((((fs.writeFile (staging ++ [tempName r]) "").writeFile (staging ++ [tempName r])
      (storedForm m c)).removeFile (staging ++ [tempName r])).writeFile
      (staging ++ [fragName r]) (storedForm m c)).read (staging ++ [fragName r]) = _
  rw [read_writeFile_self]

theorem write_fragment_none_read_other (fs : FS) (staging : FsPath) (c m r : String)
    (q : FsPath) (hq1 : q ≠ staging ++ [tempName r]) (hq2 : q ≠ staging ++ [fragName r]) :
    (write_fragment none fs staging c m r).1.read q = fs.read q := by
  show ((((fs.writeFile (staging ++ [tempName r]) "").writeFile (staging ++ [tempName r])
      (storedForm m c)).removeFile (staging ++ [tempName r])).writeFile
      (staging ++ [fragName r]) (storedForm m c)).read q = _
  rw [read_writeFile_ne _ _ _ _ hq2, read_removeFile_ne _ _ _ hq1,
    read_writeFile_ne _ _ _ _ hq1, read_writeFile_ne _ _ _ _ hq1]

theorem write_fragment_none_read_temp (fs : FS) (staging : FsPath) (c m r : String) :
    (write_fragment none fs staging c m r).1.read (staging ++ [tempName r]) = none := by
  have htf : staging ++ [tempName r] ≠ staging ++ [fragName r] :=
    append_singleton_ne_of_ne (tempName_ne_fragName r)
  show ((((fs.writeFile (staging ++ [tempName r]) "").writeFile (staging ++ [tempName r])
      (storedForm m c)).removeFile (staging ++ [tempName r])).writeFile
      (staging ++ [fragName r]) (storedForm m c)).read (staging ++ [tempName r]) = _
  rw [read_writeFile_ne _ _ _ _ htf, read_removeFile_self]

theorem write_fragment_none_ok (fs : FS) (staging : FsPath) (c m r : String) :
    (write_fragment none fs staging c m r).2 = Except.ok (staging ++ [fragName r]) := rfl

theorem write_fragment_some_eq_error (st : WriteStep) (fs : FS) (staging : FsPath)
    (c m r : String) :
    (write_fragment (some st) fs staging c m r).2 =
      Except.error
        (match st with
         | WriteStep.writeStep => "write failed"
         | WriteStep.renameStep => "rename failed"
         | WriteStep.chmodStep => "chmod failed") := by
  cases st <;> rfl

theorem pathExists_write_none_other (fs : FS) (staging : FsPath) (c m r : String)
    (q : FsPath) (hq1 : q ≠ staging ++ [tempName r]) (hq2 : q ≠ staging ++ [fragName r]) :
    (write_fragment none fs staging c m r).1.pathExists q = fs.pathExists q := by
  simp [FS.pathExists, write_fragment_none_read_other fs staging c m r q hq1 hq2,
    write_fragment_dirs]

theorem ensure_of_exists (fs : FS) (n : String) (b : FsPath)
    (h : fs.pathExists (b ++ [n]) = true) :
    (ensure_staging_directory fs n b).1 = fs := by
  simp [ensure_staging_directory, h]

theorem fragment_exists_false_of_not_exists (rf : Bool) (fs : FS) (staging : FsPath)
    (c m r : String) (h : fs.pathExists (staging ++ [fragName r]) = false) :
    fragment_exists_and_unchanged rf fs staging c m r = false := by
  simp [fragment_exists_and_unchanged, h]

theorem fragment_exists_and_unchanged_eq (rf : Bool) (fs : FS) (staging : FsPath)
    (c m r : String) :
    fragment_exists_and_unchanged rf fs staging c m r =
      (!rf && (fs.read (staging ++ [fragName r]) == some (storedForm m c))) := by
  cases hrd : fs.read (staging ++ [fragName r]) with
  | none =>
    simp only [fragment_exists_and_unchanged, FS.pathExists, hrd]
    cases hd : hasDir fs.dirs (staging ++ [fragName r]) <;> cases rf <;> simp [hd]
  | some ex =>
    simp only [fragment_exists_and_unchanged, FS.pathExists, hrd]
    cases rf with
    | true => simp
    | false =>
      by_cases he : ex = storedForm m c <;> simp [he]

theorem run_module_real_absent_changed (fl : Faults) (ms : Nat) (fs : FS) (p : Params)
    (hstate : p.state = "absent") :
    (run_module fl ms false fs p).2.changed =
      ((ensure_staging_directory fs p.name p.staging_base_dir).1).pathExists
        (fragment_path_of p ms) := by
  simp [run_module, hstate, fragment_path_of, staging_path]
  split
  · rename_i h
    rw [remove_fragment_changed] at h
    simp_all
  · rename_i h
    rw [remove_fragment_changed] at h
    simp_all

theorem run_module_real_absent_fs (fl : Faults) (ms : Nat) (fs : FS) (p : Params)
    (hstate : p.state = "absent") :
    (run_module fl ms false fs p).1 =
      (remove_fragment (ensure_staging_directory fs p.name p.staging_base_dir).1
        (staging_path p) (resolve_role_name p.role_name ms)).1 := by
  simp [run_module, hstate, staging_path]
  split <;> rfl

theorem run_module_real_present_unchanged (fl : Faults) (ms : Nat) (fs : FS) (p : Params)
    (hstate : p.state = "present")
    (hc : fragment_exists_and_unchanged fl.read_fault
        (ensure_staging_directory fs p.name p.staging_base_dir).1 (staging_path p)
        p.fragment p.mode (resolve_role_name p.role_name ms) = true) :
    (run_module fl ms false fs p).1 = (ensure_staging_directory fs p.name p.staging_base_dir).1 ∧
    (run_module fl ms false fs p).2.changed = false ∧
    (run_module fl ms false fs p).2.failed = false ∧
    (run_module fl ms false fs p).2.fragment_path = fragment_path_of p ms := by
  have hc' := hc
  simp only [staging_path] at hc'
  simp [run_module, hstate, hc', fragment_path_of, staging_path]

theorem run_module_real_present_write_ok (rf : Bool) (ms : Nat) (fs : FS) (p : Params)
    (hstate : p.state = "present")
    (hc : fragment_exists_and_unchanged rf
        (ensure_staging_directory fs p.name p.staging_base_dir).1 (staging_path p)
        p.fragment p.mode (resolve_role_name p.role_name ms) = false) :
    (run_module { read_fault := rf, write_fault := none } ms false fs p).1 =
      (write_fragment none (ensure_staging_directory fs p.name p.staging_base_dir).1
        (staging_path p) p.fragment p.mode (resolve_role_name p.role_name ms)).1 ∧
    (run_module { read_fault := rf, write_fault := none } ms false fs p).2.changed = true ∧
    (run_module { read_fault := rf, write_fault := none } ms false fs p).2.failed = false ∧
    (run_module { read_fault := rf, write_fault := none } ms false fs p).2.fragment_path =
      fragment_path_of p ms := by
  have hc' := hc
  simp only [staging_path] at hc'
  simp [run_module, hstate, hc', fragment_path_of, staging_path, write_fragment_none_ok]

theorem run_module_real_present_write_fault (rf : Bool) (st : WriteStep) (ms : Nat)
    (fs : FS) (p : Params) (hstate : p.state = "present")
    (hc : fragment_exists_and_unchanged rf
        (ensure_staging_directory fs p.name p.staging_base_dir).1 (staging_path p)
        p.fragment p.mode (resolve_role_name p.role_name ms) = false) :
    (run_module { read_fault := rf, write_fault := some st } ms false fs p).2.failed = true ∧
    (run_module { read_fault := rf, write_fault := some st } ms false fs p).2.changed = false := by
  have hc' := hc
  simp only [staging_path] at hc'
  simp [run_module, hstate, hc', write_fragment_some_eq_error]

theorem resolve_role_name_some (r : String) (ms : Nat) (hr : r ≠ "") :
    resolve_role_name (some r) ms = r := by
  simp [resolve_role_name, hr]

theorem fragment_exists_read_fault (fs : FS) (staging : FsPath) (c m r : String) :
    fragment_exists_and_unchanged true fs staging c m r = false := by
  rw [fragment_exists_and_unchanged_eq]
  rfl

/-- Claim C1 (corrected, amended): a dry run (check mode) never mutates the
filesystem, and for `absent` the dry-run `changed` value matches a real run
on the same filesystem state (stated for states where the fragment path is
not a directory, the only situation the model's total `unlink` cannot
distinguish); for `present`, however, a dry run always reports
`changed = true`: it skips the idempotency check, so it disagrees with a
real run exactly when an identical fragment already exists. -/
theorem dry_run_no_mutation_and_changed (fl : Faults) (ms : Nat) (fs : FS) (p : Params)
    (hnd : hasDir fs.dirs (fragment_path_of p ms) = false) :
    (run_module fl ms true fs p).1 = fs ∧
    (p.state = "absent" →
      (run_module fl ms false fs p).2.changed = (run_module fl ms true fs p).2.changed) ∧
    (p.state = "present" → (run_module fl ms true fs p).2.changed = true) := by
  refine ⟨run_module_check_fs fl ms fs p, fun hstate => ?_, fun hstate =>
    run_module_check_present_changed fl ms fs p hstate⟩
  rw [run_module_real_absent_changed fl ms fs p hstate,
    run_module_check_absent_changed fl ms fs p hstate]
  exact pathExists_ensure_sub fs p.name p.staging_base_dir
    (fragName (resolve_role_name p.role_name ms))

/-- Witness for `dry_run_no_mutation_and_changed`: an `absent` call on a
state holding the fragment. -/
theorem dry_run_no_mutation_and_changed_witness :
    hasDir fs_one_frag.dirs (fragment_path_of p_absent 0) = false ∧
    ((run_module noFaults 0 true fs_one_frag p_absent).1 = fs_one_frag ∧
     (p_absent.state = "absent" →
       (run_module noFaults 0 false fs_one_frag p_absent).2.changed =
         (run_module noFaults 0 true fs_one_frag p_absent).2.changed) ∧
     (p_absent.state = "present" →
       (run_module noFaults 0 true fs_one_frag p_absent).2.changed = true)) :=
  ⟨by decide, dry_run_no_mutation_and_changed noFaults 0 fs_one_frag p_absent (by decide)⟩

/-- Counterexample to claim C1 as stated: when the fragment file already
exists with identical byte content, a dry-run `present` reports
`changed = true` while a real run on the same filesystem state reports
`changed = false`. -/
theorem dry_run_present_changed_mismatch :
    fs_one_frag.read ["b", "t", "r.fragment"] = some (storedForm "enforce" "X") ∧
    (run_module noFaults 0 true fs_one_frag p_present).2.changed = true ∧
    (run_module noFaults 0 false fs_one_frag p_present).2.changed = false := by
  decide

/-- Claim C5 (corrected, amended): every non-dry-run `present` that does not
fail leaves the fragment file holding exactly the bytes
`"# Mode: " ++ mode ++ "\n" ++ content` and returns the fragment path; it
returns `changed = true` unless a fragment with identical stored bytes
already existed and was read successfully, in which case it succeeds with
`changed = false`. -/
theorem present_success_on_disk_contract (rf : Bool) (ms : Nat) (fs : FS) (p : Params)
    (hstate : p.state = "present") :
    (run_module { read_fault := rf, write_fault := none } ms false fs p).2.failed = false ∧
    (run_module { read_fault := rf, write_fault := none } ms false fs p).1.read
      (fragment_path_of p ms) = some (storedForm p.mode p.fragment) ∧
    (run_module { read_fault := rf, write_fault := none } ms false fs p).2.fragment_path =
      fragment_path_of p ms ∧
    (run_module { read_fault := rf, write_fault := none } ms false fs p).2.changed =
      !(!rf && (fs.read (fragment_path_of p ms) == some (storedForm p.mode p.fragment))) := by
  have hread : ((ensure_staging_directory fs p.name p.staging_base_dir).1).read
      (fragment_path_of p ms) = fs.read (fragment_path_of p ms) :=
    read_ensure fs p.name p.staging_base_dir _
  have heq : fragment_exists_and_unchanged rf
      (ensure_staging_directory fs p.name p.staging_base_dir).1 (staging_path p)
      p.fragment p.mode (resolve_role_name p.role_name ms) =
      (!rf && (fs.read (fragment_path_of p ms) == some (storedForm p.mode p.fragment))) := by
    rw [fragment_exists_and_unchanged_eq]
    rw [show staging_path p ++ [fragName (resolve_role_name p.role_name ms)] =
      fragment_path_of p ms from rfl]
    rw [hread]
  by_cases hc : fragment_exists_and_unchanged rf
      (ensure_staging_directory fs p.name p.staging_base_dir).1 (staging_path p)
      p.fragment p.mode (resolve_role_name p.role_name ms) = true
  · obtain ⟨h1, h2, h3, h4⟩ := run_module_real_present_unchanged
      { read_fault := rf, write_fault := none } ms fs p hstate hc
    have hval : (!rf && (fs.read (fragment_path_of p ms) ==
        some (storedForm p.mode p.fragment))) = true := heq ▸ hc
    refine ⟨h3, ?_, h4, ?_⟩
    · rw [h1, hread]
      have hval' := hval
      simp only [Bool.and_eq_true] at hval'
      exact eq_of_beq hval'.2
    · rw [h2, hval]
      rfl
  · have hc' : fragment_exists_and_unchanged rf
        (ensure_staging_directory fs p.name p.staging_base_dir).1 (staging_path p)
        p.fragment p.mode (resolve_role_name p.role_name ms) = false :=
      Bool.eq_false_iff.mpr hc
    have hval : (!rf && (fs.read (fragment_path_of p ms) ==
        some (storedForm p.mode p.fragment))) = false := heq ▸ hc'
    obtain ⟨h1, h2, h3, h4⟩ := run_module_real_present_write_ok rf ms fs p hstate hc'
    refine ⟨h3, ?_, h4, ?_⟩
    · rw [h1]
      exact write_fragment_none_read_frag _ _ _ _ _
    · rw [h2, hval]
      rfl

/-- Witness for `present_success_on_disk_contract`: a fresh `present` on an
empty filesystem. -/
theorem present_success_on_disk_contract_witness :
    p_present.state = "present" ∧
    ((run_module { read_fault := false, write_fault := none } 0 false fsEmpty p_present).2.failed = false ∧
     (run_module { read_fault := false, write_fault := none } 0 false fsEmpty p_present).1.read
       (fragment_path_of p_present 0) = some (storedForm p_present.mode p_present.fragment) ∧
     (run_module { read_fault := false, write_fault := none } 0 false fsEmpty p_present).2.fragment_path =
       fragment_path_of p_present 0 ∧
     (run_module { read_fault := false, write_fault := none } 0 false fsEmpty p_present).2.changed =
       !(!false && (fsEmpty.read (fragment_path_of p_present 0) ==
         some (storedForm p_present.mode p_present.fragment)))) :=
  ⟨rfl, present_success_on_disk_contract false 0 fsEmpty p_present rfl⟩

/-- Counterexample to claim C5 as stated: a successful non-dry-run `present`
whose fragment already exists with identical bytes returns
`changed = false`, not `changed = true`. -/
theorem present_success_not_always_changed :
    (run_module noFaults 0 false fs_one_frag p_present).2.failed = false ∧
    (run_module noFaults 0 false fs_one_frag p_present).2.changed = false ∧
    (run_module noFaults 0 false fs_one_frag p_present).2.fragment_path =
      ["b", "t", "r.fragment"] := by
  decide

/-- Claim C6 (corrected, amended): an error injected at any step of the
fragment write (write, rename, permission-set) surfaces as an operation
failure, but an I/O error while reading the existing fragment during the
idempotency check is swallowed: the check reports "changed", the operation
does not fail, and a rewrite is attempted instead. -/
theorem io_error_surfacing (rf : Bool) (st : WriteStep) (ms : Nat) (fs : FS) (p : Params)
    (hstate : p.state = "present")
    (hnofrag : fs.pathExists (fragment_path_of p ms) = false) :
    (run_module { read_fault := rf, write_fault := some st } ms false fs p).2.failed = true ∧
    (run_module { read_fault := true, write_fault := none } ms false fs p).2.failed = false ∧
    (run_module { read_fault := true, write_fault := none } ms false fs p).2.changed = true := by
  have hex : ((ensure_staging_directory fs p.name p.staging_base_dir).1).pathExists
      (fragment_path_of p ms) = false :=
    (pathExists_ensure_sub fs p.name p.staging_base_dir
      (fragName (resolve_role_name p.role_name ms))).trans hnofrag
  have hc1 : fragment_exists_and_unchanged rf
      (ensure_staging_directory fs p.name p.staging_base_dir).1 (staging_path p)
      p.fragment p.mode (resolve_role_name p.role_name ms) = false :=
    fragment_exists_false_of_not_exists rf _ _ _ _ _ hex
  have hc2 : fragment_exists_and_unchanged true
      (ensure_staging_directory fs p.name p.staging_base_dir).1 (staging_path p)
      p.fragment p.mode (resolve_role_name p.role_name ms) = false :=
    fragment_exists_read_fault _ _ _ _ _
  exact ⟨(run_module_real_present_write_fault rf st ms fs p hstate hc1).1,
    (run_module_real_present_write_ok true ms fs p hstate hc2).2.2.1,
    (run_module_real_present_write_ok true ms fs p hstate hc2).2.1⟩

/-- Witness for `io_error_surfacing`: a rename-step fault on an empty
filesystem. -/
theorem io_error_surfacing_witness :
    p_present.state = "present" ∧
    fsEmpty.pathExists (fragment_path_of p_present 0) = false ∧
    ((run_module { read_fault := false, write_fault := some WriteStep.renameStep } 0 false
        fsEmpty p_present).2.failed = true ∧
     (run_module { read_fault := true, write_fault := none } 0 false fsEmpty p_present).2.failed = false ∧
     (run_module { read_fault := true, write_fault := none } 0 false fsEmpty p_present).2.changed = true) :=
  ⟨rfl, by decide,
    io_error_surfacing false WriteStep.renameStep 0 fsEmpty p_present rfl (by decide)⟩

/-- Counterexample to claim C6 as stated: with an identical fragment on disk,
an I/O error during the idempotency-check read does not surface as a
failure — the module reports success with `changed = true` (it silently
treats the unreadable fragment as differing and rewrites it). -/
theorem read_error_swallowed :
    fs_one_frag.read ["b", "t", "r.fragment"] = some (storedForm "enforce" "X") ∧
    (run_module { read_fault := true, write_fault := none } 0 false fs_one_frag p_present).2.failed = false ∧
    (run_module { read_fault := true, write_fault := none } 0 false fs_one_frag p_present).2.changed = true := by
  decide

/-- Claim C3 (confirmed): starting from a state with no fragment for the
pair, `present` reports `changed = true` and stores the exact stored form; a
second identical `present` reports `changed = false` and performs no
filesystem mutation, leaving the bytes identical; and a further `present`
whose stored form differs (any whitespace, content or mode difference — the
check is exact byte comparison) rewrites: `changed = true` and the file
afterwards holds the new stored form, whose first line carries the new
mode. -/
theorem present_idempotent_exact (ms : Nat) (fs : FS) (p : Params) (r mode2 content2 : String)
    (hstate : p.state = "present") (hrole : p.role_name = some r) (hr : r ≠ "")
    (hnofrag : fs.pathExists (staging_path p ++ [fragName r]) = false)
    (hdiff : storedForm mode2 content2 ≠ storedForm p.mode p.fragment) :
    (run_module { read_fault := false, write_fault := none } ms false fs p).2.changed = true ∧
    (run_module { read_fault := false, write_fault := none } ms false fs p).1.read
      (staging_path p ++ [fragName r]) = some (storedForm p.mode p.fragment) ∧
    (run_module { read_fault := false, write_fault := none } ms false
        (run_module { read_fault := false, write_fault := none } ms false fs p).1 p).2.changed = false ∧
    (run_module { read_fault := false, write_fault := none } ms false
        (run_module { read_fault := false, write_fault := none } ms false fs p).1 p).1 =
      (run_module { read_fault := false, write_fault := none } ms false fs p).1 ∧
    (run_module { read_fault := false, write_fault := none } ms false
        (run_module { read_fault := false, write_fault := none } ms false fs p).1
        { p with mode := mode2, fragment := content2 }).2.changed = true ∧
    (run_module { read_fault := false, write_fault := none } ms false
        (run_module { read_fault := false, write_fault := none } ms false fs p).1
        { p with mode := mode2, fragment := content2 }).1.read
      (staging_path p ++ [fragName r]) = some (storedForm mode2 content2) := by
  have hrn : resolve_role_name p.role_name ms = r := by
    rw [hrole]
    exact resolve_role_name_some r ms hr
  -- First call: the fragment is missing, so the write path runs.
  have hex1 : ((ensure_staging_directory fs p.name p.staging_base_dir).1).pathExists
      (staging_path p ++ [fragName (resolve_role_name p.role_name ms)]) = false := by
    rw [hrn]
    exact (pathExists_ensure_sub fs p.name p.staging_base_dir (fragName r)).trans hnofrag
  have hc1 : fragment_exists_and_unchanged false
      (ensure_staging_directory fs p.name p.staging_base_dir).1 (staging_path p)
      p.fragment p.mode (resolve_role_name p.role_name ms) = false :=
    fragment_exists_false_of_not_exists false _ _ _ _ _ hex1
  obtain ⟨hfs1, hch1, _, _⟩ := run_module_real_present_write_ok false ms fs p hstate hc1
  rw [hrn] at hfs1
  -- Facts about the state after the first call.
  have hread1 : (run_module { read_fault := false, write_fault := none } ms false fs p).1.read
      (staging_path p ++ [fragName r]) = some (storedForm p.mode p.fragment) := by
    rw [hfs1]
    exact write_fragment_none_read_frag _ _ _ _ _
  have hstag1 : (run_module { read_fault := false, write_fault := none } ms false fs p).1.pathExists
      (staging_path p) = true := by
    rw [hfs1]
    rw [pathExists_write_none_other _ _ _ _ _ _
      (Ne.symm (append_singleton_ne_self _ _)) (Ne.symm (append_singleton_ne_self _ _))]
    exact pathExists_ensure_self fs p.name p.staging_base_dir
  have hens2 : (ensure_staging_directory
      (run_module { read_fault := false, write_fault := none } ms false fs p).1 p.name
      p.staging_base_dir).1 =
      (run_module { read_fault := false, write_fault := none } ms false fs p).1 :=
    ensure_of_exists _ p.name p.staging_base_dir hstag1
  -- Second call: identical arguments, the idempotency check succeeds.
  have hc2 : fragment_exists_and_unchanged false
      (ensure_staging_directory
        (run_module { read_fault := false, write_fault := none } ms false fs p).1 p.name
        p.staging_base_dir).1 (staging_path p)
      p.fragment p.mode (resolve_role_name p.role_name ms) = true := by
    rw [hens2, fragment_exists_and_unchanged_eq, hrn, hread1]
    simp
  obtain ⟨hfs2, hch2, _, _⟩ := run_module_real_present_unchanged
    { read_fault := false, write_fault := none } ms
    (run_module { read_fault := false, write_fault := none } ms false fs p).1 p hstate hc2
  -- Third call: a different stored form forces a rewrite.
  set fs1 := (run_module { read_fault := false, write_fault := none } ms false fs p).1 with hfs1def
  set p2 : Params := { p with mode := mode2, fragment := content2 } with hp2def
  have hstate2 : p2.state = "present" := hstate
  have hrn2 : resolve_role_name p2.role_name ms = r := hrn
  have hens3 : (ensure_staging_directory fs1 p2.name p2.staging_base_dir).1 = fs1 :=
    ensure_of_exists _ p2.name p2.staging_base_dir hstag1
  have hc3 : fragment_exists_and_unchanged false
      (ensure_staging_directory fs1 p2.name p2.staging_base_dir).1 (staging_path p2)
      p2.fragment p2.mode (resolve_role_name p2.role_name ms) = false := by
    rw [hens3, fragment_exists_and_unchanged_eq]
    have hpath : (staging_path p2 ++ [fragName (resolve_role_name p2.role_name ms)]) =
        staging_path p ++ [fragName r] := by
      rw [hrn2]
      rfl
    rw [hpath, hread1]
    show (!false && (some (storedForm p.mode p.fragment) ==
      some (storedForm mode2 content2))) = false
    rw [Bool.not_false, Bool.true_and, beq_eq_false_iff_ne]
    intro hcontra
    exact hdiff (Option.some.inj hcontra).symm
  obtain ⟨hfs3, hch3, _, _⟩ := run_module_real_present_write_ok false ms fs1 p2 hstate2 hc3
  have hread3 : (run_module { read_fault := false, write_fault := none } ms false fs1 p2).1.read
      (staging_path p ++ [fragName r]) = some (storedForm mode2 content2) := by
    rw [hfs3, hens3, hrn2]
    exact write_fragment_none_read_frag fs1 (staging_path p2) p2.fragment p2.mode r
  exact ⟨hch1, hread1, hch2, hfs2.trans hens2, hch3, hread3⟩

/-- Witness for `present_idempotent_exact`: role `r` contributing to target
`t`, first in enforce mode with content `"X"`, then rewritten in complain
mode. -/
theorem present_idempotent_exact_witness :
    p_present.state = "present" ∧ p_present.role_name = some "r" ∧ "r" ≠ "" ∧
    fsEmpty.pathExists (staging_path p_present ++ [fragName "r"]) = false ∧
    storedForm "complain" "X" ≠ storedForm p_present.mode p_present.fragment ∧
    ((run_module { read_fault := false, write_fault := none } 0 false fsEmpty p_present).2.changed = true ∧
     (run_module { read_fault := false, write_fault := none } 0 false fsEmpty p_present).1.read
       (staging_path p_present ++ [fragName "r"]) =
       some (storedForm p_present.mode p_present.fragment) ∧
     (run_module { read_fault := false, write_fault := none } 0 false
         (run_module { read_fault := false, write_fault := none } 0 false fsEmpty p_present).1
         p_present).2.changed = false ∧
     (run_module { read_fault := false, write_fault := none } 0 false
         (run_module { read_fault := false, write_fault := none } 0 false fsEmpty p_present).1
         p_present).1 =
       (run_module { read_fault := false, write_fault := none } 0 false fsEmpty p_present).1 ∧
     (run_module { read_fault := false, write_fault := none } 0 false
         (run_module { read_fault := false, write_fault := none } 0 false fsEmpty p_present).1
         { p_present with mode := "complain", fragment := "X" }).2.changed = true ∧
     (run_module { read_fault := false, write_fault := none } 0 false
         (run_module { read_fault := false, write_fault := none } 0 false fsEmpty p_present).1
         { p_present with mode := "complain", fragment := "X" }).1.read
       (staging_path p_present ++ [fragName "r"]) = some (storedForm "complain" "X")) :=
  ⟨rfl, rfl, by decide, by decide, by decide,
    present_idempotent_exact 0 fsEmpty p_present "r" "complain" "X" rfl rfl
      (by decide) (by decide) (by decide)⟩

theorem remove_fragment_fs_of_exists (fs : FS) (d : FsPath) (r : String)
    (h : fs.pathExists (d ++ [fragName r]) = true) :
    (remove_fragment fs d r).1 = (fs.removeFile (d ++ [fragName r])).rmdirIfEmpty d := by
  simp [remove_fragment, h]

theorem hasDir_rmdir_after_remove (fs : FS) (d fp : FsPath)
    (hdir : hasDir fs.dirs d = true)
    (hnosub : anyDirUnder fs.dirs d = false) :
    hasDir ((fs.removeFile fp).rmdirIfEmpty d).dirs d = anyOtherUnder fs.files d fp := by
  cases hcase : anyOtherUnder fs.files d fp with
  | true =>
    have hcnd : (anyUnder (removeFileL fs.files fp) d || anyDirUnder fs.dirs d) = true := by
      simp [anyUnder_removeFileL, hcase]
    simp [FS.rmdirIfEmpty, FS.removeFile, hcnd, hdir]
  | false =>
    have hcnd : (anyUnder (removeFileL fs.files fp) d || anyDirUnder fs.dirs d) = false := by
      simp [anyUnder_removeFileL, hcase, hnosub]
    simp [FS.rmdirIfEmpty, FS.removeFile, hcnd, hasDir_removeDirL_self]

/-- Claim C8 (confirmed): a non-dry-run `absent` that finds the fragment
removes it and reports `changed = true`, leaves every other file (in
particular any remaining fragment of the same target) byte-for-byte
untouched, and afterwards the staging directory exists if and only if some
other file remains strictly below it — so removing the last fragment
removes the directory, while removing one of two fragments keeps the
directory and the other fragment. -/
theorem absent_removes_and_cleans (ms : Nat) (fs : FS) (p : Params) (r c : String) (q : FsPath)
    (hstate : p.state = "absent") (hrole : p.role_name = some r) (hr : r ≠ "")
    (hdir : hasDir fs.dirs (staging_path p) = true)
    (hfrag : fs.read (staging_path p ++ [fragName r]) = some c)
    (hnosub : anyDirUnder fs.dirs (staging_path p) = false)
    (hq : q ≠ staging_path p ++ [fragName r]) :
    (run_module noFaults ms false fs p).2.changed = true ∧
    (run_module noFaults ms false fs p).1.read (staging_path p ++ [fragName r]) = none ∧
    (run_module noFaults ms false fs p).1.read q = fs.read q ∧
    hasDir (run_module noFaults ms false fs p).1.dirs (staging_path p) =
      anyOtherUnder fs.files (staging_path p) (staging_path p ++ [fragName r]) := by
  have hrn : resolve_role_name p.role_name ms = r := by
    rw [hrole]
    exact resolve_role_name_some r ms hr
  have hpe : fs.pathExists (staging_path p) = true := by
    simp [FS.pathExists, hdir]
  have hens : (ensure_staging_directory fs p.name p.staging_base_dir).1 = fs :=
    ensure_of_exists _ p.name p.staging_base_dir hpe
  have hfp : fragment_path_of p ms = staging_path p ++ [fragName r] := by
    unfold fragment_path_of
    rw [hrn]
  have hpe2 : fs.pathExists (staging_path p ++ [fragName r]) = true := by
    simp [FS.pathExists, hfrag]
  have hout : (run_module noFaults ms false fs p).1 =
      (fs.removeFile (staging_path p ++ [fragName r])).rmdirIfEmpty (staging_path p) := by
    rw [run_module_real_absent_fs noFaults ms fs p hstate, hens, hrn,
      remove_fragment_fs_of_exists fs (staging_path p) r hpe2]
  refine ⟨?_, ?_, ?_, ?_⟩
  · rw [run_module_real_absent_changed noFaults ms fs p hstate, hens, hfp]
    exact hpe2
  · rw [hout, read_rmdirIfEmpty, read_removeFile_self]
  · rw [hout, read_rmdirIfEmpty, read_removeFile_ne _ _ _ hq]
  · rw [hout]
    exact hasDir_rmdir_after_remove fs _ _ hdir hnosub

/-- Witness for `absent_removes_and_cleans`: removing role `r`'s fragment
while role `s`'s fragment remains — `changed = true`, the sibling fragment
is untouched, and the staging directory survives because a fragment
remains. -/
theorem absent_removes_and_cleans_witness :
    p_absent.state = "absent" ∧ p_absent.role_name = some "r" ∧ "r" ≠ "" ∧
    hasDir fs_two_frags.dirs (staging_path p_absent) = true ∧
    fs_two_frags.read (staging_path p_absent ++ [fragName "r"]) =
      some "# Mode: enforce\nA" ∧
    anyDirUnder fs_two_frags.dirs (staging_path p_absent) = false ∧
    (["b", "t", "s.fragment"] : FsPath) ≠ staging_path p_absent ++ [fragName "r"] ∧
    ((run_module noFaults 0 false fs_two_frags p_absent).2.changed = true ∧
     (run_module noFaults 0 false fs_two_frags p_absent).1.read
       (staging_path p_absent ++ [fragName "r"]) = none ∧
     (run_module noFaults 0 false fs_two_frags p_absent).1.read ["b", "t", "s.fragment"] =
       fs_two_frags.read ["b", "t", "s.fragment"] ∧
     hasDir (run_module noFaults 0 false fs_two_frags p_absent).1.dirs (staging_path p_absent) =
       anyOtherUnder fs_two_frags.files (staging_path p_absent)
         (staging_path p_absent ++ [fragName "r"])) :=
  ⟨rfl, rfl, by decide, by decide, by decide, by decide, by decide,
    absent_removes_and_cleans 0 fs_two_frags p_absent "r" "# Mode: enforce\nA"
      ["b", "t", "s.fragment"] rfl rfl (by decide) (by decide) (by decide) (by decide)
      (by decide)⟩

theorem isNotFoundFailure_resolve (ctx : ActionCtx) (f : String) :
    isNotFoundFailure (resolve_and_execute ctx f) = false := by
  unfold resolve_and_execute
  cases hr : ctx.readFile f with
  | none => rfl
  | some fc =>
    cases ht : ctx.template fc with
    | none => simp [ht, isNotFoundFailure]
    | some t => simp [ht, isNotFoundFailure]

/-- Claim C9 (corrected, amended): argument validation runs before any
module code touches the managed host: presence of `name`, the `mode` and
`state` choices, and exactly-one-of `fragment_src`/`fragment` are checked,
and a violating call fails as a configuration error with the filesystem
untouched; but NON-EMPTINESS of the target name is not checked — validation
treats an empty `name` exactly like any other supplied name, so an empty
target reaches the engine. -/
theorem boundary_validation (fl : Faults) (ms : Nat) (cm : Bool) (fs : FS) (a : RawArgs) :
    (validate_args a = false → module_main fl ms cm fs a = (fs, configErrorResult)) ∧
    (validate_args a = true →
      module_main fl ms cm fs a = run_module fl ms cm fs (apply_defaults a)) ∧
    validate_args { a with name := some "" } =
      validate_args { a with name := some "nonempty" } := by
  refine ⟨fun h => ?_, fun h => ?_, ?_⟩
  · simp [module_main, h]
  · simp [module_main, h]
  · simp [validate_args]

/-- Witness for `boundary_validation` at the concrete raw arguments
`a_empty_name`. -/
theorem boundary_validation_witness :
    (validate_args a_empty_name = false →
      module_main noFaults 0 false fsEmpty a_empty_name = (fsEmpty, configErrorResult)) ∧
    (validate_args a_empty_name = true →
      module_main noFaults 0 false fsEmpty a_empty_name =
        run_module noFaults 0 false fsEmpty (apply_defaults a_empty_name)) ∧
    validate_args { a_empty_name with name := some "" } =
      validate_args { a_empty_name with name := some "nonempty" } :=
  boundary_validation noFaults 0 false fsEmpty a_empty_name

/-- Counterexample to claim C9 as stated: an empty target name passes
validation, the engine runs (no configuration error), and the filesystem is
touched — the staging directory `baseDir/""` is created. -/
theorem empty_target_reaches_engine :
    validate_args a_empty_name = true ∧
    (module_main noFaults 0 false fsEmpty a_empty_name).2.failed = false ∧
    hasDir (module_main noFaults 0 false fsEmpty a_empty_name).1.dirs ["b", ""] = true ∧
    (module_main noFaults 0 false fsEmpty a_empty_name).1 ≠ fsEmpty := by
  decide

/-- Claim C10 (confirmed): with `fragment_src` supplied, the `files/` lookup
is consulted first and the `templates/` lookup only if it fails (a `files/`
hit makes the outcome independent of the `templates/` lookup); a lookup
failure is reported only when both fail; and a file located in either
directory is read and its content always passed through template expansion
before the module executes. -/
theorem fragment_src_resolution (ctx : ActionCtx) (g : String → Option String)
    (src f c : String) :
    ((ctx.findFiles src).isSome = true →
      action_run { ctx with findTemplates := g } (some src) none =
        action_run ctx (some src) none) ∧
    (ctx.findFiles src = none → ctx.findTemplates src = none →
      action_run ctx (some src) none = ActionOutcome.failed ActionErr.notFound
        ("Could not find or access " ++ src ++ " in files/ or templates/ directories")) ∧
    (((ctx.findFiles src).isSome || (ctx.findTemplates src).isSome) = true →
      isNotFoundFailure (action_run ctx (some src) none) = false) ∧
    (ctx.findFiles src = some f → ctx.readFile f = some c →
      action_run ctx (some src) none = Option.elim (ctx.template c)
        (ActionOutcome.failed ActionErr.templateError ("Failed to template file " ++ f))
        ActionOutcome.execute) ∧
    (ctx.findFiles src = none → ctx.findTemplates src = some f → ctx.readFile f = some c →
      action_run ctx (some src) none = Option.elim (ctx.template c)
        (ActionOutcome.failed ActionErr.templateError ("Failed to template file " ++ f))
        ActionOutcome.execute) := by
  refine ⟨fun h => ?_, fun h1 h2 => ?_, fun h => ?_, fun h1 h2 => ?_, fun h1 h2 h3 => ?_⟩
  · cases hf : ctx.findFiles src with
    | none => rw [hf] at h; simp at h
    | some f' => simp [action_run, hf, resolve_and_execute]
  · simp [action_run, h1, h2]
  · cases hf : ctx.findFiles src with
    | some f' => simp [action_run, hf, isNotFoundFailure_resolve]
    | none =>
      rw [hf] at h
      simp at h
      cases ht : ctx.findTemplates src with
      | none => rw [ht] at h; simp at h
      | some f' => simp [action_run, hf, ht, isNotFoundFailure_resolve]
  · cases htpl : ctx.template c with
    | none => simp [action_run, h1, resolve_and_execute, h2, htpl]
    | some t => simp [action_run, h1, resolve_and_execute, h2, htpl]
  · cases htpl : ctx.template c with
    | none => simp [action_run, h1, h2, resolve_and_execute, h3, htpl]
    | some t => simp [action_run, h1, h2, resolve_and_execute, h3, htpl]

/-- Witness for `fragment_src_resolution` at the concrete context
`ctx_sample`, looking up `"a.rules"` (a `files/` hit). -/
theorem fragment_src_resolution_witness :
    ((ctx_sample.findFiles "a.rules").isSome = true →
      action_run { ctx_sample with findTemplates := fun _ => none } (some "a.rules") none =
        action_run ctx_sample (some "a.rules") none) ∧
    (ctx_sample.findFiles "a.rules" = none → ctx_sample.findTemplates "a.rules" = none →
      action_run ctx_sample (some "a.rules") none = ActionOutcome.failed ActionErr.notFound
        ("Could not find or access " ++ "a.rules" ++ " in files/ or templates/ directories")) ∧
    (((ctx_sample.findFiles "a.rules").isSome || (ctx_sample.findTemplates "a.rules").isSome) = true →
      isNotFoundFailure (action_run ctx_sample (some "a.rules") none) = false) ∧
    (ctx_sample.findFiles "a.rules" = some "roles/x/files/a.rules" →
      ctx_sample.readFile "roles/x/files/a.rules" = some "raw rules" →
      action_run ctx_sample (some "a.rules") none =
        Option.elim (ctx_sample.template "raw rules")
          (ActionOutcome.failed ActionErr.templateError
            ("Failed to template file " ++ "roles/x/files/a.rules"))
          ActionOutcome.execute) ∧
    (ctx_sample.findFiles "a.rules" = none →
      ctx_sample.findTemplates "a.rules" = some "roles/x/files/a.rules" →
      ctx_sample.readFile "roles/x/files/a.rules" = some "raw rules" →
      action_run ctx_sample (some "a.rules") none =
        Option.elim (ctx_sample.template "raw rules")
          (ActionOutcome.failed ActionErr.templateError
            ("Failed to template file " ++ "roles/x/files/a.rules"))
          ActionOutcome.execute) :=
  fragment_src_resolution ctx_sample (fun _ => none) "a.rules" "roles/x/files/a.rules" "raw rules"
